import Mathlib

/-
Verification development for the gotools LSP transport and client protocol
engine.  The definitions below are shallow embeddings of the Python code in
src/api/lsp.py and src/api/__init__.py: byte strings are modelled as List Nat
of byte values, Python dicts as insertion-ordered association lists, JSON
values as an inductive type, raised exceptions as Except errors, and the
transport as the list of messages written to it.  Namespace Lsp holds the
embedding of src/api/lsp.py, namespace Api the embedding of
src/api/__init__.py.
-/

namespace Gotools

/-- JSON value, the payload type transported opaquely by the engine.
Numbers are modelled as integers (the ids and codes the engine touches are
integers); object fields are an insertion-ordered association list, as
produced by json.loads. -/
inductive Json where
  | null
  | bool (b : Bool)
  | num (n : Int)
  | str (s : String)
  | arr (elements : List Json)
  | obj (fields : List (String × Json))

/-- Python truthiness of a JSON value: None, False, 0, empty string, empty
list and empty dict are falsy, everything else is truthy. -/
def pyTruthy : Json → Bool
  | Json.null => false
  | Json.bool b => b
  | Json.num n => n != 0
  | Json.str s => s ≠ ""
  | Json.arr elements => ¬ elements.isEmpty
  | Json.obj fields => ¬ fields.isEmpty

/-- Python truthiness of an optional value (None is falsy). -/
def pyTruthyOpt : Option Json → Bool
  | none => false
  | some j => pyTruthy j

/-- Python dict lookup d.get(k) on a string-keyed dict. -/
def dictGet (d : List (String × Json)) (k : String) : Option Json :=
  match d with
  | [] => none
  | (k', v) :: rest => if k' = k then some v else dictGet rest k

/-- Python dict assignment d[k] = v: replaces the value in place when the key
exists, otherwise appends the new entry (insertion order, Python 3.7+). -/
def dictSet (d : List (String × Json)) (k : String) (v : Json) :
    List (String × Json) :=
  match d with
  | [] => [(k, v)]
  | (k', v') :: rest => if k' = k then (k', v) :: rest else (k', v') :: dictSet rest k v

/-- Python message.get(k): returns None both when the key is absent and when
the JSON value is null, because json.loads maps null to None.  Callers that
branch on id-is-not-None therefore treat a null field like a missing one. -/
def pyGet (d : List (String × Json)) (k : String) : Option Json :=
  match dictGet d k with
  | some Json.null => none
  | r => r

/-- View of a JSON value as an integer dict key.  The request maps are
int-keyed Python dicts; an inbound id of any other JSON shape compares
unequal to every integer key. -/
def keyOfJson : Json → Option Int
  | Json.num n => some n
  | _ => none

/-- Lookup in an int-keyed request map (Python d.get and the in test). -/
def idictGet (d : List (Int × String)) (k : Int) : Option String :=
  match d with
  | [] => none
  | (k', v) :: rest => if k' = k then some v else idictGet rest k

/-- Python d.pop(k) without default: returns the map with the entry removed,
or none when the key is missing (a KeyError in Python). -/
def idictPop (d : List (Int × String)) (k : Int) : Option (List (Int × String)) :=
  match d with
  | [] => none
  | (k', v) :: rest =>
    if k' = k then some rest else (idictPop rest k).map (fun r => (k', v) :: r)

/-- Python d.pop(k) returning the popped value as well. -/
def idictPopV (d : List (Int × String)) (k : Int) :
    Option (String × List (Int × String)) :=
  match d with
  | [] => none
  | (k', v) :: rest =>
    if k' = k then some (v, rest)
    else (idictPopV rest k).map (fun r => (r.1, (k', v) :: r.2))

/-- Python d.pop(k, default): always succeeds, leaving the map unchanged when
the key is missing. -/
def idictPopD (d : List (Int × String)) (k : Int) (dflt : String) :
    String × List (Int × String) :=
  match idictPopV d k with
  | some (v, rest) => (v, rest)
  | none => (dflt, d)

/-- Python dict assignment d[k] = v on an int-keyed map. -/
def idictSet (d : List (Int × String)) (k : Int) (v : String) :
    List (Int × String) :=
  match d with
  | [] => [(k, v)]
  | (k', v') :: rest => if k' = k then (k', v) :: rest else (k', v') :: idictSet rest k v

/-- Decimal digits of a natural number, most significant first, as ASCII
byte values; helper for the Content-Length header rendering. -/
def natToDigitsAux : Nat → List Nat → List Nat
  | 0, acc => acc
  | n + 1, acc => natToDigitsAux ((n + 1) / 10) ((((n + 1) % 10) + 48) :: acc)
decreasing_by exact Nat.div_lt_self (Nat.succ_pos n) (by decide)

/-- ASCII bytes of the decimal rendering of a natural number, exactly as
Python str and percent-d formatting render a nonnegative int. -/
def natToDecimal (n : Nat) : List Nat :=
  if n = 0 then [48] else natToDigitsAux n []

/-- Value of a string of ASCII decimal digits, as Python int() computes it. -/
def digitsToNat (ds : List Nat) : Nat := ds.foldl (fun acc d => acc * 10 + (d - 48)) 0

/-- Helper for reasoning about digitsToNat of natToDigitsAux. -/
def expandDec (a : Nat) : Nat → Nat
  | 0 => a
  | n + 1 => expandDec a ((n + 1) / 10) * 10 + (n + 1) % 10
decreasing_by exact Nat.div_lt_self (Nat.succ_pos n) (by decide)

/-- First index at which pat occurs as a contiguous subsequence of l, the
Python bytes.index scan (none models the ValueError raised when absent). -/
def findSubseqAux (l pat : List Nat) (i : Nat) : Option Nat :=
  if pat.isPrefixOf l then some i
  else
    match l with
    | [] => none
    | _ :: rest => findSubseqAux rest pat (i + 1)

/-- Python buffers.index(pat). -/
def findSubseq (l pat : List Nat) : Option Nat := findSubseqAux l pat 0

/-- ASCII bytes of the literal string Content-Length colon space. -/
def contentLengthLit : List Nat :=
  [67, 111, 110, 116, 101, 110, 116, 45, 76, 101, 110, 103, 116, 104, 58, 32]

/-- The four byte frame separator CR LF CR LF. -/
def msgSeparator : List Nat := [13, 10, 13, 10]

/-- ASCII decimal digit test. -/
def isDigitByte (b : Nat) : Bool := 48 ≤ b && b ≤ 57

/-- Longest digit run at the front of the list, the regex digit group. -/
def takeDigits : List Nat → List Nat
  | [] => []
  | b :: rest => if isDigitByte b then b :: takeDigits rest else []

/-- Regex match of Content-Length colon space digits anchored at the current
position: requires the literal prefix followed by at least one digit and
returns the int value of the maximal digit run. -/
def matchContentLengthAt (l : List Nat) : Option Nat :=
  if contentLengthLit.isPrefixOf l then
    let ds := takeDigits (l.drop 16)
    if ds.isEmpty then none else some (digitsToNat ds)
  else none

/-- re.search of the anchored Content-Length pattern with the MULTILINE flag
over the header bytes: tries the anchored match at the start of the string
and after every newline byte, scanning left to right.  Embeds the compiled
regex in Stream of src/api/lsp.py line 152. -/
def searchContentLength : List Nat → Bool → Option Nat
  | [], atLineStart => if atLineStart then matchContentLengthAt [] else none
  | c :: rest, atLineStart =>
    if atLineStart then
      (matchContentLengthAt (c :: rest)).or (searchContentLength rest (c == 10))
    else searchContentLength rest (c == 10)

deriving instance DecidableEq for Except

/-- Both rewrites represent a JSON-RPC message as a dict. -/
abbrev RPCMessage := List (String × Json)

namespace Lsp

/-- RPCMessage.__init__, src/api/lsp.py lines 64-69: a dict built from the
given mapping with the jsonrpc field then set to the literal 2.0. -/
def mkRPC (mapping : RPCMessage) : RPCMessage :=
  dictSet mapping "jsonrpc" (Json.str "2.0")

/-- RPCMessage.notification, src/api/lsp.py lines 96-98. -/
def RPCMessage.notification (method : String) (params : Json) : RPCMessage :=
  mkRPC [("method", Json.str method), ("params", params)]

/-- RPCMessage.request, src/api/lsp.py lines 100-102. -/
def RPCMessage.request (id : Json) (method : String) (params : Json) : RPCMessage :=
  mkRPC [("id", id), ("method", Json.str method), ("params", params)]

/-- RPCMessage.response, src/api/lsp.py lines 104-111: starts from the id
field, then adds result when supplied and error when supplied, each guarded
only by an is-not-None test. -/
def RPCMessage.response (id : Json) (result error : Option Json) : RPCMessage :=
  let c := mkRPC [("id", id)]
  let c := match result with
    | none => c
    | some r => dictSet c "result" r
  match error with
  | none => c
  | some e => dictSet c "error" e

/-- RPCMessage.cancel_request, src/api/lsp.py lines 113-115. -/
def RPCMessage.cancel_request (id : Json) : RPCMessage :=
  mkRPC [("method", Json.str "$/cancelRequest"), ("params", Json.obj [("id", id)])]

/-- The JSON value serialized by json.dumps for a message dict. -/
def RPCMessage.to_json (m : RPCMessage) : Json := Json.obj m

/-- Exceptions of the Lsp client embedding: KeyError from dict.pop,
NotInitialized from the session guard, InvalidMessage from message
validation and dispatch. -/
inductive LspError where
  | keyError
  | notInitialized
  | invalidMessage
deriving DecidableEq

/-- RPCMessage.from_bytes, src/api/lsp.py lines 82-94, with the byte and
json.loads text layer abstracted as the parsed JSON value (json.loads of
json.dumps is the identity on these dicts).  A payload that is not an
object, or whose jsonrpc field is absent (KeyError) or differs from the
literal 2.0, raises InvalidMessage; otherwise the message dict is rebuilt
through the constructor. -/
def RPCMessage.from_json (j : Json) : Except LspError RPCMessage :=
  match j with
  | Json.obj fields =>
    match dictGet fields "jsonrpc" with
    | some (Json.str v) =>
      if v = "2.0" then Except.ok (mkRPC fields) else Except.error LspError.invalidMessage
    | _ => Except.error LspError.invalidMessage
  | _ => Except.error LspError.invalidMessage

/-- RPCMessage.to_bytes, src/api/lsp.py lines 75-80, with the json.dumps
encoded body abstracted as the byte list encoded: the header line joined to
the body with the CR LF CR LF separator. -/
def to_bytes_framing (encoded : List Nat) : List Nat :=
  (contentLengthLit ++ natToDecimal encoded.length) ++ msgSeparator ++ encoded

/-- Exceptions raised by Stream.get_content in src/api/lsp.py lines 161-205:
EOFError on an empty buffer, InvalidMessage on a header error, and
ContentIncomplete when fewer than Content-Length body bytes are buffered. -/
inductive StreamErr where
  | eofError
  | invalidMessage
  | contentIncomplete
deriving DecidableEq

/-- Stream object of src/api/lsp.py lines 134-205: the internal accumulator
is the list of byte chunks received so far (self.buffer). -/
structure Stream where
  buffer : List (List Nat)
deriving DecidableEq

/-- Stream.put, src/api/lsp.py lines 147-150: appends a chunk. -/
def Stream.put (s : Stream) (data : List Nat) : Stream :=
  ⟨s.buffer ++ [data]⟩

/-- Stream.get_content, src/api/lsp.py lines 161-205.  Joins the buffered
chunks; raises EOFError when empty; locates the first CR LF CR LF separator
and parses Content-Length from the header region before it, discarding the
whole accumulator and raising InvalidMessage when either step fails (the
except ValueError block, which also catches the ascii decode error on a
header byte of 128 or more); raises ContentIncomplete without touching the
accumulator when fewer than Content-Length bytes follow the separator;
otherwise returns the body and keeps only the bytes after it.  The result
pairs the Except outcome with the stream state after the call. -/
def Stream.get_content (s : Stream) : Except StreamErr (List Nat) × Stream :=
  let buffers := s.buffer.flatten
  if buffers.isEmpty then (Except.error StreamErr.eofError, s)
  else
    match findSubseq buffers msgSeparator with
    | none => (Except.error StreamErr.invalidMessage, ⟨[]⟩)
    | some header_end =>
      if (buffers.take header_end).any (fun b => 128 ≤ b) then
        (Except.error StreamErr.invalidMessage, ⟨[]⟩)
      else
        match searchContentLength (buffers.take header_end) true with
        | none => (Except.error StreamErr.invalidMessage, ⟨[]⟩)
        | some content_length =>
          let start_index := header_end + msgSeparator.length
          let end_index := start_index + content_length
          let content := (buffers.drop start_index).take content_length
          if content.length < content_length then
            (Except.error StreamErr.contentIncomplete, s)
          else (Except.ok content, ⟨[buffers.drop end_index]⟩)

/-- Mutable state of LSPClient, src/api/lsp.py lines 978-998: the id to
method request map and the monotonically increasing id counter, which
starts at minus one. -/
structure LSPClientState where
  request_map : List (Int × String)
  current_req_id : Int
deriving DecidableEq

/-- LSPClient.next_request_id, src/api/lsp.py lines 996-998. -/
def next_request_id (st : LSPClientState) : Int × LSPClientState :=
  let id := st.current_req_id + 1
  (id, { st with current_req_id := id })

/-- LSPClient.cancel_request, src/api/lsp.py lines 1092-1095: builds the
cancellation notification, pops the id from the request map (KeyError when
absent, in which case nothing is sent), then writes the notification. -/
def LSPClient.cancel_request (st : LSPClientState) (request_id : Int) :
    Except LspError (LSPClientState × List RPCMessage) :=
  match idictPop st.request_map request_id with
  | none => Except.error LspError.keyError
  | some rest =>
    Except.ok ({ st with request_map := rest },
      [RPCMessage.cancel_request (Json.num request_id)])

/-- The for loop in LSPClient.send_request, src/api/lsp.py lines 1082-1087:
walks a copy of the request map and calls cancel_request for every entry
whose method matches, threading the mutated state and accumulating the
written cancellation notifications in order. -/
def cancelMatching (st : LSPClientState) (entries : List (Int × String))
    (method : String) : Except LspError (LSPClientState × List RPCMessage) :=
  match entries with
  | [] => Except.ok (st, [])
  | (req_id, req_method) :: rest =>
    if req_method = method then
      match LSPClient.cancel_request st req_id with
      | Except.error e => Except.error e
      | Except.ok (st', msgs) =>
        match cancelMatching st' rest method with
        | Except.error e => Except.error e
        | Except.ok (st'', msgs') => Except.ok (st'', msgs ++ msgs')
    else cancelMatching st rest method

/-- LSPClient.send_request, src/api/lsp.py lines 1078-1090: takes the next
id, builds the request, cancels every previously registered request of the
same method (iterating over a copy of the request map), registers the new
id, and writes the request after the cancellation notifications.  No
session-initialization check appears in this method. -/
def LSPClient.send_request (st : LSPClientState) (method : String) (params : Json) :
    Except LspError (LSPClientState × List RPCMessage) :=
  let r := next_request_id st
  let request_id := r.1
  let st1 := r.2
  let message := RPCMessage.request (Json.num request_id) method params
  match (if st1.request_map.isEmpty then Except.ok (st1, [])
         else cancelMatching st1 st1.request_map method) with
  | Except.error e => Except.error e
  | Except.ok (st2, cancels) =>
    Except.ok ({ st2 with request_map := idictSet st2.request_map request_id method },
      cancels ++ [message])

/-- LSPClient.send_notification, src/api/lsp.py lines 1102-1103: writes the
notification immediately, with no registry interaction and no
session-initialization check. -/
def LSPClient.send_notification (st : LSPClientState) (method : String)
    (params : Json) : LSPClientState × List RPCMessage :=
  (st, [RPCMessage.notification method params])

/-- Error payload sent by exec_message on a failed dispatch, src/api/lsp.py
lines 1056-1059 (the exception text is abbreviated to its fixed part). -/
def error9001 : Json :=
  Json.obj [("code", Json.num 9001), ("message", Json.str "method not found")]

/-- LSPClient.exec_command, src/api/lsp.py lines 1069-1076: looks the method
up in the handler table (command_map), raising InvalidMessage on a KeyError
(which a None method always produces, since every key is a string), and
otherwise invokes the handler.  The handler table is modelled as the list
of registered method names and an invocation as the recorded pair of method
and message. -/
def LSPClient.exec_command (command_map : List String) (method : Option String)
    (params : RPCMessage) : Except LspError (List (String × RPCMessage)) :=
  match method with
  | none => Except.error LspError.invalidMessage
  | some mt =>
    if mt ∈ command_map then Except.ok [(mt, params)]
    else Except.error LspError.invalidMessage

/-- LSPClient.exec_response, src/api/lsp.py lines 1061-1067: pops the id
from the request map (raising InvalidMessage on KeyError) and then
dispatches the full response message to the handler of the resolved method.
The pop happens before the dispatch, so the state is returned even when the
dispatch raises. -/
def LSPClient.exec_response (command_map : List String) (st : LSPClientState)
    (id : Int) (message : RPCMessage) :
    LSPClientState × Except LspError (List (String × RPCMessage)) :=
  match idictPopV st.request_map id with
  | none => (st, Except.error LspError.invalidMessage)
  | some (method, rest) =>
    let st' := { st with request_map := rest }
    match LSPClient.exec_command command_map (some method) message with
    | Except.error e => (st', Except.error e)
    | Except.ok calls => (st', Except.ok calls)

/-- The message method value as a handler-table key: only a string value can
match a key of command_map. -/
def methodKey (message : RPCMessage) : Option String :=
  match pyGet message "method" with
  | some (Json.str s) => some s
  | _ => none

/-- The second try block of LSPClient.exec_message, src/api/lsp.py lines
1049-1059: runs exec_command on the message method; on an exception it logs
and, when the message carries an id, writes an error response with code
9001 back to the transport. -/
def exec_message_fallback (command_map : List String) (st : LSPClientState)
    (message_id : Option Json) (message : RPCMessage) :
    LSPClientState × List (String × RPCMessage) × List RPCMessage :=
  match LSPClient.exec_command command_map (methodKey message) message with
  | Except.ok calls => (st, calls, [])
  | Except.error _ =>
    match message_id with
    | some idv => (st, [], [RPCMessage.response idv none (some error9001)])
    | none => (st, [], [])

/-- LSPClient.exec_message, src/api/lsp.py lines 1036-1059: when the message
has a non-null id that is a tracked key of the request map, runs
exec_response (exceptions logged, nothing written); otherwise falls through
to command dispatch with the error-response fallback.  The result is the
new state, the handler invocations, and the messages written to the
transport. -/
def LSPClient.exec_message (command_map : List String) (st : LSPClientState)
    (message : RPCMessage) :
    LSPClientState × List (String × RPCMessage) × List RPCMessage :=
  match pyGet message "id" with
  | some idv =>
    match keyOfJson idv with
    | some i =>
      if (idictGet st.request_map i).isSome then
        match LSPClient.exec_response command_map st i message with
        | (st', Except.ok calls) => (st', calls, [])
        | (st', Except.error _) => (st', [], [])
      else exec_message_fallback command_map st (some idv) message
    | none => exec_message_fallback command_map st (some idv) message
  | none => exec_message_fallback command_map st none message

/-- The session.initialized decorator applied to Commands.workspace_executeCommand,
src/api/lsp.py lines 214-222 and 810-812: raises NotInitialized when the
session flag is false, otherwise delegates to send_request. -/
def Commands.workspace_executeCommand (is_initialized : Bool)
    (st : LSPClientState) (params : Json) :
    Except LspError (LSPClientState × List RPCMessage) :=
  if is_initialized then LSPClient.send_request st "workspace/executeCommand" params
  else Except.error LspError.notInitialized

/-- Python truthiness of a Popen.poll() result: None (still running) and an
exit status of 0 are both falsy; any nonzero status is truthy. -/
def pollTruthy : Option Int → Bool
  | none => false
  | some code => code != 0

/-- StandardIO.is_running, src/api/lsp.py lines 1157-1165: False when no
process was spawned; False when poll() is truthy; True otherwise.  The
process handle is modelled as none (never spawned) or some pollResult,
where pollResult is none while the child runs and some code after exit. -/
def StandardIO.is_running (server_process : Option (Option Int)) : Bool :=
  match server_process with
  | none => false
  | some poll => if pollTruthy poll then false else true

end Lsp

namespace Api

/-- wrap_rpc, src/api/__init__.py lines 123-126: header line Content-Length
colon space length CR LF, then CR LF, then the content. -/
def wrap_rpc (content : List Nat) : List Nat :=
  (Gotools.contentLengthLit ++ natToDecimal content.length ++ [13, 10]) ++
    ([13, 10] ++ content)

/-- Python None-or-value serialized as JSON (json.dumps maps None to null). -/
def jsonOfOpt : Option Json → Json
  | none => Json.null
  | some j => j

/-- RPCMessage.request, src/api/__init__.py lines 65-67: id, method and
params only; the jsonrpc field is added later, by dumps. -/
def RPCMessage.request (id : Json) (method : String) (params : Json) : RPCMessage :=
  [("id", id), ("method", Json.str method), ("params", params)]

/-- RPCMessage.dumps, src/api/__init__.py lines 84-91, at the dict level:
sets the jsonrpc field to the literal 2.0 on the message and serializes it;
the dict recorded on the transport trace is the one that gets
serialized. -/
def RPCMessage.dumps (m : RPCMessage) : RPCMessage :=
  dictSet m "jsonrpc" (Json.str "2.0")

/-- RPCMessage.response, src/api/__init__.py lines 73-82: when the supplied
error is truthy the message carries id and error only; otherwise it carries
id and result (null when result was not supplied). -/
def RPCMessage.response (id : Json) (result error : Option Json) : RPCMessage :=
  match error with
  | some e =>
    if pyTruthy e then [("id", id), ("error", e)]
    else [("id", id), ("result", jsonOfOpt result)]
  | none => [("id", id), ("result", jsonOfOpt result)]

/-- Character folding of BaseHandler.flatten_method: slash and dot become
underscore, everything else is lowercased. -/
def flattenChar (c : Char) : Char :=
  if c = '/' then '_' else if c = '.' then '_' else c.toLower

/-- BaseHandler.flatten_method, src/api/__init__.py lines 46-48: handle_
prepended to the method, slashes and dots replaced by underscores, the
whole string lowercased. -/
def flatten_method (method : String) : String :=
  String.mk (("handle_" ++ method).data.map flattenChar)

/-- Modelled from the spec: the errors module imported at the top of
src/api/__init__.py (from . import errors) is absent from src; per the spec
error taxonomy, MethodNotFound is the non-fatal error raised when an
inbound method has no registered handler. -/
inductive ApiError where
  | methodNotFound
deriving DecidableEq

/-- RPCMessage.exception_to_message, src/api/__init__.py lines 102-104 (the
exception text is abbreviated). -/
def exception_to_message : Json :=
  Json.obj [("message", Json.str "error"), ("code", Json.num 1)]

/-- BaseHandler.handle, src/api/__init__.py lines 50-59: getattr of the
flattened attribute name on the handler object, raising MethodNotFound when
the attribute is missing, otherwise calling it.  The handler object is
modelled as a table from flattened attribute name to returned JSON value;
the result pairs that value with the recorded invocation. -/
def BaseHandler.handle (handlers : List (String × Json)) (method : String)
    (arg : Json) : Except ApiError (Json × (String × Json)) :=
  match dictGet handlers (flatten_method method) with
  | some ret => Except.ok (ret, (method, arg))
  | none => Except.error ApiError.methodNotFound

/-- Mutable state of Client, src/api/__init__.py lines 297-312: the id to
method request map, the set of canceled request ids, and the id counter
starting at minus one. -/
structure ClientState where
  request_map : List (Int × String)
  canceled_requests : List Int
  temp_request_id : Int
deriving DecidableEq

/-- Client.new_request_id, src/api/__init__.py lines 318-320. -/
def new_request_id (st : ClientState) : Int × ClientState :=
  let id := st.temp_request_id + 1
  (id, { st with temp_request_id := id })

/-- Python set.add on the canceled-ids set (kept as a duplicate-free
list). -/
def setAdd (s : List Int) (i : Int) : List Int :=
  if i ∈ s then s else s ++ [i]

/-- The for loop of Client.send_request, src/api/__init__.py lines 423-426:
adds the id of every registered entry whose method matches to the canceled
set.  No message is written and no entry is removed by this loop. -/
def cancelPrevious (canceled : List Int) (entries : List (Int × String))
    (method : String) : List Int :=
  match entries with
  | [] => canceled
  | (req_id, meth) :: rest =>
    if meth = method then cancelPrevious (setAdd canceled req_id) rest method
    else cancelPrevious canceled rest method

/-- Client.send_request, src/api/__init__.py lines 421-430: marks the ids of
matching previous requests as canceled (locally: no cancellation
notification is written to the transport), takes the next id, writes the
new request, and registers the new id; previously registered ids stay in
the request map until their responses arrive. -/
def Client.send_request (st : ClientState) (method : String) (params : Json) :
    ClientState × List RPCMessage :=
  let canceled := cancelPrevious st.canceled_requests st.request_map method
  let r := new_request_id { st with canceled_requests := canceled }
  ({ r.2 with request_map := idictSet r.2.request_map r.1 method },
    [RPCMessage.dumps (RPCMessage.request (Json.num r.1) method params)])

/-- Client.handle_response, src/api/__init__.py lines 407-419: pops the id
from the request map with default unknown; a canceled id is removed from
the canceled set and dropped; otherwise the handler is invoked with the
resolved method and the full message, any exception being logged and
swallowed.  Nothing is ever written to the transport on this path. -/
def Client.handle_response (handlers : List (String × Json)) (st : ClientState)
    (idv : Json) (message : RPCMessage) :
    ClientState × List (String × Json) × List RPCMessage :=
  match keyOfJson idv with
  | some i =>
    let mth := (idictPopD st.request_map i "unknown").1
    let rm2 := (idictPopD st.request_map i "unknown").2
    if i ∈ st.canceled_requests then
      ({ st with
          request_map := rm2
          canceled_requests := st.canceled_requests.erase i }, [], [])
    else
      match BaseHandler.handle handlers mth (Json.obj message) with
      | Except.ok r => ({ st with request_map := rm2 }, [r.2], [])
      | Except.error _ => ({ st with request_map := rm2 }, [], [])
  | none =>
    match BaseHandler.handle handlers "unknown" (Json.obj message) with
    | Except.ok r => (st, [r.2], [])
    | Except.error _ => (st, [], [])

/-- The dispatch of handler.handle inside handle_request and
handle_notification: a non-string method or missing params key raises (and
is caught by the surrounding try). -/
def dispatchHandle (handlers : List (String × Json)) (message : RPCMessage) :
    Except ApiError (Json × (String × Json)) :=
  match dictGet message "method", dictGet message "params" with
  | some (Json.str s), some p => BaseHandler.handle handlers s p
  | _, _ => Except.error ApiError.methodNotFound

/-- Client.handle_request, src/api/__init__.py lines 390-399: invokes the
handler, converting an exception into an error payload, then always sends
exactly one response carrying the request id. -/
def Client.handle_request (handlers : List (String × Json)) (st : ClientState)
    (idv : Json) (message : RPCMessage) :
    ClientState × List (String × Json) × List RPCMessage :=
  match dispatchHandle handlers message with
  | Except.ok r => (st, [r.2], [RPCMessage.response idv (some r.1) none])
  | Except.error _ => (st, [], [RPCMessage.response idv none (some exception_to_message)])

/-- Client.handle_notification, src/api/__init__.py lines 401-405: invokes
the handler, logging and swallowing any exception; nothing is written. -/
def Client.handle_notification (handlers : List (String × Json)) (st : ClientState)
    (message : RPCMessage) : ClientState × List (String × Json) × List RPCMessage :=
  match dispatchHandle handlers message with
  | Except.ok r => (st, [r.2], [])
  | Except.error _ => (st, [], [])

/-- Client.handle_message, src/api/__init__.py lines 372-388: a truthy
method field routes to request (id present) or notification (id absent); a
message without a method but with an id routes to handle_response; anything
else is logged and dropped. -/
def Client.handle_message (handlers : List (String × Json)) (st : ClientState)
    (message : RPCMessage) : ClientState × List (String × Json) × List RPCMessage :=
  let id := pyGet message "id"
  if pyTruthyOpt (pyGet message "method") then
    match id with
    | none => Client.handle_notification handlers st message
    | some idv => Client.handle_request handlers st idv message
  else
    match id with
    | some idv => Client.handle_response handlers st idv message
    | none => (st, [], [])

/-- StandardIO.is_running, src/api/__init__.py lines 180-181: a process was
spawned and poll() is None. -/
def StandardIO.is_running (process : Option (Option Int)) : Bool :=
  match process with
  | none => false
  | some poll => poll.isNone

end Api

/-! Helper lemmas about the decimal digit functions. -/

theorem expandDec_zero (n : Nat) : expandDec 0 n = n := by
  induction n using Nat.strong_induction_on with
  | _ n ih =>
    match n with
    | 0 => simp [expandDec]
    | m + 1 =>
      rw [expandDec, ih ((m + 1) / 10) (Nat.div_lt_self (Nat.succ_pos m) (by decide))]
      omega

theorem foldl_natToDigitsAux (n : Nat) :
    ∀ acc a, (natToDigitsAux n acc).foldl (fun acc d => acc * 10 + (d - 48)) a =
      acc.foldl (fun acc d => acc * 10 + (d - 48)) (expandDec a n) := by
  induction n using Nat.strong_induction_on with
  | _ n ih =>
    intro acc a
    match n with
    | 0 => simp [natToDigitsAux, expandDec]
    | m + 1 =>
      rw [natToDigitsAux, ih ((m + 1) / 10) (Nat.div_lt_self (Nat.succ_pos m) (by decide)),
        expandDec]
      simp [List.foldl]

theorem digitsToNat_natToDecimal (n : Nat) : digitsToNat (natToDecimal n) = n := by
  unfold natToDecimal
  split
  · simp [digitsToNat]; omega
  · unfold digitsToNat
    rw [foldl_natToDigitsAux]
    simp [List.foldl, expandDec_zero]

theorem natToDecimal_digits (n : Nat) : ∀ d ∈ natToDecimal n, 48 ≤ d ∧ d ≤ 57 := by
  unfold natToDecimal
  have aux : ∀ m, ∀ acc, (∀ d ∈ acc, 48 ≤ d ∧ d ≤ 57) →
      ∀ d ∈ natToDigitsAux m acc, 48 ≤ d ∧ d ≤ 57 := by
    intro m
    induction m using Nat.strong_induction_on with
    | _ m ih =>
      intro acc hacc
      match m with
      | 0 => simpa [natToDigitsAux] using hacc
      | k + 1 =>
        rw [natToDigitsAux]
        refine ih ((k + 1) / 10) (Nat.div_lt_self (Nat.succ_pos k) (by decide)) _ ?_
        intro d hd
        rcases List.mem_cons.mp hd with h | h
        · subst h
          have : (k + 1) % 10 < 10 := Nat.mod_lt _ (by decide)
          omega
        · exact hacc d h
  split
  · intro d hd; simp at hd; omega
  · exact aux n [] (by intro d hd; simp at hd)

theorem natToDecimal_ne_nil (n : Nat) : natToDecimal n ≠ [] := by
  unfold natToDecimal
  have aux : ∀ m acc, acc.length ≤ (natToDigitsAux m acc).length := by
    intro m
    induction m using Nat.strong_induction_on with
    | _ m ih =>
      intro acc
      match m with
      | 0 => simp [natToDigitsAux]
      | k + 1 =>
        rw [natToDigitsAux]
        calc acc.length ≤ ((((k + 1) % 10) + 48) :: acc).length := by simp
        _ ≤ _ := ih ((k + 1) / 10) (Nat.div_lt_self (Nat.succ_pos k) (by decide)) _
  split
  · simp
  · next hn =>
    match n, hn with
    | k + 1, _ =>
      rw [natToDigitsAux]
      intro h
      have := aux ((k + 1) / 10) [(((k + 1) % 10) + 48)]
      rw [h] at this
      simp at this

/-! Helper lemmas about the header scanning functions. -/

theorem takeDigits_all (ds : List Nat) (h : ∀ d ∈ ds, 48 ≤ d ∧ d ≤ 57) :
    takeDigits ds = ds := by
  induction ds with
  | nil => rfl
  | cons b rest ih =>
    have hb := h b (by simp)
    rw [takeDigits]
    rw [if_pos (by simp [isDigitByte]; omega)]
    rw [ih (fun d hd => h d (by simp [hd]))]

theorem sep_isPrefixOf_cons (c : Nat) (l : List Nat) (h : c ≠ 13) :
    msgSeparator.isPrefixOf (c :: l) = false := by
  simp [msgSeparator, List.isPrefixOf]
  intro hc
  exact absurd hc.symm h

theorem findSubseqAux_sep (b : List Nat) :
    ∀ (pre : List Nat) (i : Nat), (∀ x ∈ pre, x ≠ 13) →
      findSubseqAux (pre ++ msgSeparator ++ b) msgSeparator i = some (i + pre.length) := by
  intro pre
  induction pre with
  | nil =>
    intro i _
    rw [findSubseqAux.eq_def]
    rw [if_pos (List.isPrefixOf_iff_prefix.mpr (by simp [List.prefix_append]))]
    simp
  | cons c rest ih =>
    intro i h
    rw [findSubseqAux.eq_def]
    have hc : c ≠ 13 := h c (by simp)
    simp only [List.cons_append]
    rw [if_neg (by rw [sep_isPrefixOf_cons c _ hc]; simp)]
    rw [ih (i + 1) (fun x hx => h x (by simp [hx]))]
    simp
    omega

theorem searchContentLength_header (n : Nat) :
    searchContentLength (contentLengthLit ++ natToDecimal n) true = some n := by
  have hdrop : (contentLengthLit ++ natToDecimal n).drop 16 = natToDecimal n := by
    have h16 : contentLengthLit.length = 16 := by decide
    rw [← h16, List.drop_left]
  have hmatch : matchContentLengthAt (contentLengthLit ++ natToDecimal n) = some n := by
    unfold matchContentLengthAt
    rw [if_pos (List.isPrefixOf_iff_prefix.mpr (List.prefix_append _ _))]
    simp only [hdrop, takeDigits_all _ (natToDecimal_digits n)]
    rw [if_neg (by simp [List.isEmpty_iff, natToDecimal_ne_nil n])]
    rw [digitsToNat_natToDecimal]
  obtain ⟨c, rest, hcr⟩ : ∃ c rest, contentLengthLit ++ natToDecimal n = c :: rest :=
    ⟨67, [111, 110, 116, 101, 110, 116, 45, 76, 101, 110, 103, 116, 104, 58, 32] ++
      natToDecimal n, by simp [contentLengthLit]⟩
  rw [hcr, searchContentLength, if_pos rfl, ← hcr, hmatch]
  rfl

theorem header_ne_13 (n : Nat) : ∀ x ∈ contentLengthLit ++ natToDecimal n, x ≠ 13 := by
  intro x hx
  rcases List.mem_append.mp hx with h | h
  · simp [contentLengthLit] at h; omega
  · have := natToDecimal_digits n x h; omega

theorem header_any_128 (n : Nat) :
    (contentLengthLit ++ natToDecimal n).any (fun y => 128 ≤ y) = false := by
  rw [List.any_eq_false]
  intro x hx
  rcases List.mem_append.mp hx with h | h
  · simp [contentLengthLit] at h; simp; omega
  · have := natToDecimal_digits n x h; simp; omega

/-- C4: for every byte string b (including the empty byte string), wrapping b
produces exactly the bytes Content-Length colon space, the decimal length,
CR LF CR LF, then b; the lsp.py to_bytes framing produces the same bytes;
and feeding that wrapped frame into a fresh stream buffer and taking one
frame yields exactly b (with an empty leftover buffer). -/
theorem C4_framing_round_trip (b : List Nat) :
    Api.wrap_rpc b = contentLengthLit ++ natToDecimal b.length ++ msgSeparator ++ b ∧
    Lsp.to_bytes_framing b = Api.wrap_rpc b ∧
    Lsp.Stream.get_content ⟨[Api.wrap_rpc b]⟩ = (Except.ok b, ⟨[[]]⟩) := by
  have hwrap : Api.wrap_rpc b =
      (contentLengthLit ++ natToDecimal b.length) ++ (msgSeparator ++ b) := by
    simp [Api.wrap_rpc, msgSeparator]
  have hfind : findSubseq ((contentLengthLit ++ natToDecimal b.length) ++
      (msgSeparator ++ b)) msgSeparator =
      some (contentLengthLit ++ natToDecimal b.length).length := by
    have h := findSubseqAux_sep b (contentLengthLit ++ natToDecimal b.length) 0
      (header_ne_13 b.length)
    simpa [findSubseq, List.append_assoc] using h
  refine ⟨by simpa [List.append_assoc] using hwrap,
    by simp [Lsp.to_bytes_framing, hwrap, List.append_assoc], ?_⟩
  rw [hwrap]
  unfold Lsp.Stream.get_content
  simp only [List.flatten_cons, List.flatten_nil, List.append_nil]
  rw [if_neg (by simp [contentLengthLit])]
  rw [hfind]
  dsimp only
  rw [List.take_left]
  rw [if_neg (by rw [header_any_128 b.length]; simp)]
  rw [searchContentLength_header]
  have hdrop : ((contentLengthLit ++ natToDecimal b.length) ++ (msgSeparator ++ b)).drop
      ((contentLengthLit ++ natToDecimal b.length).length + msgSeparator.length) = b := by
    rw [← List.append_assoc, ← List.length_append, List.drop_left]
  rw [hdrop]
  dsimp only
  rw [List.take_length, if_neg (lt_irrefl b.length)]
  have hdropAll : ((contentLengthLit ++ natToDecimal b.length) ++ (msgSeparator ++ b)).drop
      ((contentLengthLit ++ natToDecimal b.length).length + msgSeparator.length +
        b.length) = [] := by
    apply List.drop_eq_nil_of_le
    simp [List.length_append]
    omega
  rw [hdropAll]

/-- C1 (code bug evidence): when a frame is split inside the header, so that
the CR LF CR LF separator is not yet in the accumulator, Stream.get_content
discards the whole buffer and raises InvalidMessage instead of signalling
incompleteness and preserving the buffer; the remainder of the frame then
never reassembles and the body is lost.  Concretely, the frame for the two
byte body open-brace close-brace is split after byte 17 (inside the header):
the first take discards the buffered header fragment, and the second take,
fed the rest of the frame, fails the same way.  For contrast, the last two
conjuncts show the same frame undamaged in one chunk parses to the body,
and a split after the separator (inside the body) is reported as
ContentIncomplete with the accumulator preserved, which is what the claim
expects for header splits as well. -/
theorem C1_header_split_discards_buffer :
    Lsp.Stream.get_content (Lsp.Stream.put ⟨[]⟩ (contentLengthLit ++ [50])) =
      (Except.error Lsp.StreamErr.invalidMessage, ⟨[]⟩) ∧
    Lsp.Stream.get_content (Lsp.Stream.put ⟨[]⟩ [13, 10, 13, 10, 123, 125]) =
      (Except.error Lsp.StreamErr.invalidMessage, ⟨[]⟩) ∧
    Lsp.Stream.get_content ⟨[contentLengthLit ++ [50] ++ [13, 10, 13, 10, 123, 125]]⟩ =
      (Except.ok [123, 125], ⟨[[]]⟩) ∧
    Lsp.Stream.get_content ⟨[contentLengthLit ++ [50] ++ [13, 10, 13, 10, 123]]⟩ =
      (Except.error Lsp.StreamErr.contentIncomplete,
        ⟨[contentLengthLit ++ [50] ++ [13, 10, 13, 10, 123]]⟩) := by
  refine ⟨by decide, by decide, by decide, by decide⟩

/-- C7 (code bug evidence): after the child process exits with status 0,
poll() returns 0, which is falsy in Python, so StandardIO.is_running of
src/api/lsp.py answers true even though the process has exited; the claim
(and the is_running of src/api/init, shown for contrast) says it must be
false.  The remaining conjuncts check the other poll outcomes of the lsp.py
version: running (poll None) gives true, nonzero exit gives false, never
spawned gives false. -/
theorem C7_exit_zero_liveness_bug :
    Lsp.StandardIO.is_running (some (some 0)) = true ∧
    Api.StandardIO.is_running (some (some 0)) = false ∧
    Lsp.StandardIO.is_running (some none) = true ∧
    Lsp.StandardIO.is_running (some (some 1)) = false ∧
    Lsp.StandardIO.is_running (some (some (-15))) = false ∧
    Lsp.StandardIO.is_running none = false := by
  refine ⟨rfl, rfl, rfl, rfl, rfl, rfl⟩

/-! Helper lemmas about string-keyed dicts. -/

theorem dictGet_dictSet_self (d : List (String × Json)) (k : String) (v : Json) :
    dictGet (dictSet d k v) k = some v := by
  induction d with
  | nil => simp [dictGet, dictSet]
  | cons e rest ih =>
    obtain ⟨k', v'⟩ := e
    by_cases h : k' = k
    · simp [dictGet, dictSet, h]
    · simp [dictGet, dictSet, h, ih]

/-- C5: every constructed message (request, notification, response with any
combination of supplied result and error, cancel notification) carries the
jsonrpc field with the literal string 2.0; decoding the encoded form of any
constructed message gives back a structurally equal message; and decoding a
JSON object payload whose jsonrpc field is absent, or present with any
value other than the string 2.0, fails with InvalidMessage. -/
theorem C5_jsonrpc_invariant :
    (∀ id method params, dictGet (Lsp.RPCMessage.request id method params) "jsonrpc" =
      some (Json.str "2.0")) ∧
    (∀ method params, dictGet (Lsp.RPCMessage.notification method params) "jsonrpc" =
      some (Json.str "2.0")) ∧
    (∀ id result error, dictGet (Lsp.RPCMessage.response id result error) "jsonrpc" =
      some (Json.str "2.0")) ∧
    (∀ id, dictGet (Lsp.RPCMessage.cancel_request id) "jsonrpc" = some (Json.str "2.0")) ∧
    (∀ id method params,
      Lsp.RPCMessage.from_json (Lsp.RPCMessage.to_json (Lsp.RPCMessage.request id method params)) =
        Except.ok (Lsp.RPCMessage.request id method params)) ∧
    (∀ method params,
      Lsp.RPCMessage.from_json (Lsp.RPCMessage.to_json (Lsp.RPCMessage.notification method params)) =
        Except.ok (Lsp.RPCMessage.notification method params)) ∧
    (∀ id result error,
      Lsp.RPCMessage.from_json (Lsp.RPCMessage.to_json (Lsp.RPCMessage.response id result error)) =
        Except.ok (Lsp.RPCMessage.response id result error)) ∧
    (∀ fields, dictGet fields "jsonrpc" = none →
      Lsp.RPCMessage.from_json (Json.obj fields) = Except.error Lsp.LspError.invalidMessage) ∧
    (∀ fields v, dictGet fields "jsonrpc" = some v → v ≠ Json.str "2.0" →
      Lsp.RPCMessage.from_json (Json.obj fields) = Except.error Lsp.LspError.invalidMessage) := by
  refine ⟨fun id method params => rfl, fun method params => rfl, ?_, fun id => rfl,
    fun id method params => rfl, fun method params => rfl, ?_, ?_, ?_⟩
  · intro id result error
    cases result <;> cases error <;> rfl
  · intro id result error
    cases result <;> cases error <;> rfl
  · intro fields h
    unfold Lsp.RPCMessage.from_json
    dsimp only
    rw [h]
  · intro fields v h hne
    unfold Lsp.RPCMessage.from_json
    dsimp only
    rw [h]
    match v, hne with
    | Json.null, _ => rfl
    | Json.bool b, _ => rfl
    | Json.num n, _ => rfl
    | Json.arr xs, _ => rfl
    | Json.obj fs, _ => rfl
    | Json.str s, hne =>
      dsimp only
      rw [if_neg (fun hs => hne (by rw [hs]))]

/-- Witness for C5 at concrete inputs: a payload without a jsonrpc field and
a payload with jsonrpc equal to the string 1.0 are both rejected. -/
theorem C5_jsonrpc_invariant_witness :
    Lsp.RPCMessage.from_json (Json.obj [("id", Json.num 1)]) =
      Except.error Lsp.LspError.invalidMessage ∧
    Lsp.RPCMessage.from_json (Json.obj [("jsonrpc", Json.str "1.0"), ("id", Json.num 1)]) =
      Except.error Lsp.LspError.invalidMessage ∧
    dictGet (Lsp.RPCMessage.request (Json.num 1) "textDocument/hover" Json.null) "jsonrpc" =
      some (Json.str "2.0") :=
  ⟨C5_jsonrpc_invariant.2.2.2.2.2.2.2.1 [("id", Json.num 1)] rfl,
   C5_jsonrpc_invariant.2.2.2.2.2.2.2.2 [("jsonrpc", Json.str "1.0"), ("id", Json.num 1)]
     (Json.str "1.0") rfl (fun h => by simp at h),
   C5_jsonrpc_invariant.1 (Json.num 1) "textDocument/hover" Json.null⟩

/-- C6 counterexample: the claim says that when both result and error are
supplied, error takes precedence and result is not included; but the
response constructor of src/api/lsp.py lines 104-111 includes both fields,
so the exactly-one property fails at this concrete input. -/
theorem C6_both_fields_counterexample :
    dictGet (Lsp.RPCMessage.response (Json.num 1) (some (Json.str "r"))
      (some (Json.str "e"))) "result" = some (Json.str "r") ∧
    dictGet (Lsp.RPCMessage.response (Json.num 1) (some (Json.str "r"))
      (some (Json.str "e"))) "error" = some (Json.str "e") :=
  ⟨rfl, rfl⟩

/-- C6 as amended: the lsp.py response constructor includes the result field
iff result is supplied and the error field iff error is supplied, so
supplying both yields both fields and supplying neither yields neither; the
response constructor of src/api/init instead always produces exactly one of
the two fields, with a truthy supplied error taking precedence (result
dropped) and the result field (null when absent) produced otherwise. -/
theorem C6_response_construction (id r e : Json) :
    (dictGet (Lsp.RPCMessage.response id (some r) (some e)) "result" = some r ∧
     dictGet (Lsp.RPCMessage.response id (some r) (some e)) "error" = some e) ∧
    (dictGet (Lsp.RPCMessage.response id (some r) none) "result" = some r ∧
     dictGet (Lsp.RPCMessage.response id (some r) none) "error" = none) ∧
    (dictGet (Lsp.RPCMessage.response id none (some e)) "result" = none ∧
     dictGet (Lsp.RPCMessage.response id none (some e)) "error" = some e) ∧
    (dictGet (Lsp.RPCMessage.response id none none) "result" = none ∧
     dictGet (Lsp.RPCMessage.response id none none) "error" = none) ∧
    (pyTruthy e = true →
      Api.RPCMessage.response id (some r) (some e) = [("id", id), ("error", e)]) ∧
    (pyTruthy e = false →
      Api.RPCMessage.response id (some r) (some e) = [("id", id), ("result", r)]) ∧
    (Api.RPCMessage.response id (some r) none = [("id", id), ("result", r)]) ∧
    (Api.RPCMessage.response id none none = [("id", id), ("result", Json.null)]) := by
  refine ⟨⟨rfl, rfl⟩, ⟨rfl, rfl⟩, ⟨rfl, rfl⟩, ⟨rfl, rfl⟩, ?_, ?_, rfl, rfl⟩
  · intro h
    unfold Api.RPCMessage.response
    dsimp only
    rw [h]
    rfl
  · intro h
    unfold Api.RPCMessage.response
    dsimp only
    rw [h]
    rfl

/-- Witness for C6 at concrete inputs, supplying both result and error with
a truthy and with a falsy error value. -/
theorem C6_response_construction_witness :
    Api.RPCMessage.response (Json.num 1) (some (Json.str "r"))
      (some (Json.obj [("code", Json.num 1)])) =
      [("id", Json.num 1), ("error", Json.obj [("code", Json.num 1)])] ∧
    Api.RPCMessage.response (Json.num 1) (some (Json.str "r")) (some (Json.obj [])) =
      [("id", Json.num 1), ("result", Json.str "r")] :=
  ⟨(C6_response_construction (Json.num 1) (Json.str "r")
      (Json.obj [("code", Json.num 1)])).2.2.2.2.1 rfl,
   (C6_response_construction (Json.num 1) (Json.str "r") (Json.obj [])).2.2.2.2.2.1 rfl⟩

/-! Helper lemmas about int-keyed dicts. -/

theorem idictGet_eq_none_of (i : Int) :
    ∀ d : List (Int × String), (∀ e ∈ d, e.1 ≠ i) → idictGet d i = none := by
  intro d
  induction d with
  | nil => intro _; rfl
  | cons e rest ih =>
    intro h
    obtain ⟨k, v⟩ := e
    have hk : k ≠ i := h (k, v) (by simp)
    simp only [idictGet, if_neg hk]
    exact ih fun e he => h e (by simp [he])

theorem idictGet_append_cons (i : Int) (m : String) (post : List (Int × String)) :
    ∀ pre : List (Int × String), (∀ e ∈ pre, e.1 ≠ i) →
      idictGet (pre ++ (i, m) :: post) i = some m := by
  intro pre
  induction pre with
  | nil => intro _; simp [idictGet]
  | cons e rest ih =>
    intro h
    obtain ⟨k, v⟩ := e
    have hk : k ≠ i := h (k, v) (by simp)
    simp only [List.cons_append, idictGet, if_neg hk]
    exact ih fun e he => h e (by simp [he])

theorem idictPopV_append_cons (i : Int) (m : String) (post : List (Int × String)) :
    ∀ pre : List (Int × String), (∀ e ∈ pre, e.1 ≠ i) →
      idictPopV (pre ++ (i, m) :: post) i = some (m, pre ++ post) := by
  intro pre
  induction pre with
  | nil => intro _; simp [idictPopV]
  | cons e rest ih =>
    intro h
    obtain ⟨k, v⟩ := e
    have hk : k ≠ i := h (k, v) (by simp)
    simp only [List.cons_append, idictPopV, if_neg hk, List.append_eq]
    rw [ih fun e he => h e (by simp [he])]
    rfl

theorem idictPop_append_cons (i : Int) (m : String) (post : List (Int × String)) :
    ∀ pre : List (Int × String), (∀ e ∈ pre, e.1 ≠ i) →
      idictPop (pre ++ (i, m) :: post) i = some (pre ++ post) := by
  intro pre
  induction pre with
  | nil => intro _; simp [idictPop]
  | cons e rest ih =>
    intro h
    obtain ⟨k, v⟩ := e
    have hk : k ≠ i := h (k, v) (by simp)
    simp only [List.cons_append, idictPop, if_neg hk, List.append_eq]
    rw [ih fun e he => h e (by simp [he])]
    rfl

theorem idictPopV_eq_none_of (i : Int) :
    ∀ d : List (Int × String), (∀ e ∈ d, e.1 ≠ i) → idictPopV d i = none := by
  intro d
  induction d with
  | nil => intro _; rfl
  | cons e rest ih =>
    intro h
    obtain ⟨k, v⟩ := e
    have hk : k ≠ i := h (k, v) (by simp)
    simp only [idictPopV, if_neg hk]
    rw [ih fun e he => h e (by simp [he])]
    rfl

theorem idictGet_idictSet_self (k : Int) (v : String) :
    ∀ d : List (Int × String), idictGet (idictSet d k v) k = some v := by
  intro d
  induction d with
  | nil => simp [idictGet, idictSet]
  | cons e rest ih =>
    obtain ⟨k', v'⟩ := e
    by_cases h : k' = k
    · simp [idictGet, idictSet, h]
    · simp [idictGet, idictSet, h, ih]

theorem idictGet_idictSet_ne (k k' : Int) (v : String) (hne : k' ≠ k) :
    ∀ d : List (Int × String), idictGet (idictSet d k v) k' = idictGet d k' := by
  intro d
  induction d with
  | nil =>
    simp only [idictSet, idictGet]
    rw [if_neg (fun hh => hne hh.symm)]
  | cons e rest ih =>
    obtain ⟨k0, v0⟩ := e
    by_cases h : k0 = k
    · subst h
      simp only [idictSet, if_pos rfl, idictGet]
      rw [if_neg (fun hh => hne hh.symm), if_neg (fun hh => hne hh.symm)]
    · simp only [idictSet, if_neg h, idictGet]
      by_cases h2 : k0 = k'
      · rw [if_pos h2, if_pos h2]
      · rw [if_neg h2, if_neg h2, ih]

/-! Helper lemmas about the cancellation loop of send_request. -/

theorem cancelMatching_none (method : String) :
    ∀ (entries : List (Int × String)) (st : Lsp.LSPClientState),
      (∀ e ∈ entries, e.2 ≠ method) →
      Lsp.cancelMatching st entries method = Except.ok (st, []) := by
  intro entries
  induction entries with
  | nil => intro st _; rfl
  | cons e rest ih =>
    intro st h
    obtain ⟨ri, rm⟩ := e
    have hrm : rm ≠ method := h (ri, rm) (by simp)
    rw [Lsp.cancelMatching, if_neg hrm]
    exact ih st fun e he => h e (by simp [he])

theorem cancelMatching_skip (method : String) (rest : List (Int × String)) :
    ∀ (pre : List (Int × String)) (st : Lsp.LSPClientState),
      (∀ e ∈ pre, e.2 ≠ method) →
      Lsp.cancelMatching st (pre ++ rest) method = Lsp.cancelMatching st rest method := by
  intro pre
  induction pre with
  | nil => intro st _; rfl
  | cons e tail ih =>
    intro st h
    obtain ⟨ri, rm⟩ := e
    have hrm : rm ≠ method := h (ri, rm) (by simp)
    rw [List.cons_append, Lsp.cancelMatching, if_neg hrm]
    exact ih st fun e he => h e (by simp [he])

/-! Helper lemmas about the local cancellation loop of the init-module
Client.send_request. -/

theorem cancelPrevious_none (method : String) :
    ∀ (entries : List (Int × String)) (c : List Int),
      (∀ e ∈ entries, e.2 ≠ method) → Api.cancelPrevious c entries method = c := by
  intro entries
  induction entries with
  | nil => intro c _; rfl
  | cons e rest ih =>
    intro c h
    obtain ⟨ri, rm⟩ := e
    have hrm : rm ≠ method := h (ri, rm) (by simp)
    rw [Api.cancelPrevious, if_neg hrm]
    exact ih c fun e he => h e (by simp [he])

theorem cancelPrevious_skip (method : String) (rest : List (Int × String)) :
    ∀ (pre : List (Int × String)) (c : List Int),
      (∀ e ∈ pre, e.2 ≠ method) →
      Api.cancelPrevious c (pre ++ rest) method = Api.cancelPrevious c rest method := by
  intro pre
  induction pre with
  | nil => intro c _; rfl
  | cons e tail ih =>
    intro c h
    obtain ⟨ri, rm⟩ := e
    have hrm : rm ≠ method := h (ri, rm) (by simp)
    rw [List.cons_append, Api.cancelPrevious, if_neg hrm]
    exact ih c fun e he => h e (by simp [he])

/-- C2 counterexample: the claim says that sending a second request for the
same method writes exactly one cancellation notification for the
superseded id i1 and leaves a registry containing i2 but not i1; but the
Client.send_request of src/api/__init__.py, with id 1 registered for the
hover method, writes only the new request (no $/cancelRequest at all: the
single written message carries the hover method) and leaves id 1 in the
request map next to the new id 2, merely adding 1 to its local canceled
set. -/
theorem C2_no_cancel_counterexample :
    Api.Client.send_request ⟨[(1, "textDocument/hover")], [], 1⟩
        "textDocument/hover" Json.null =
      (⟨[(1, "textDocument/hover"), (2, "textDocument/hover")], [1], 2⟩,
        [Api.RPCMessage.dumps
          (Api.RPCMessage.request (Json.num 2) "textDocument/hover" Json.null)]) ∧
    idictGet [(1, "textDocument/hover"), (2, "textDocument/hover")] 1 =
      some "textDocument/hover" ∧
    dictGet (Api.RPCMessage.dumps
        (Api.RPCMessage.request (Json.num 2) "textDocument/hover" Json.null))
      "method" = some (Json.str "textDocument/hover") :=
  ⟨rfl, rfl, rfl⟩

/-- C2 as amended: supersession is engine specific.  For LSPClient in
src/api/lsp.py the claim holds as stated: with the registry holding exactly
one request for method m under id i1, send_request assigns the fresh id i2
(successor of the counter), writes exactly one cancellation notification
for i1 followed by the new request, and afterwards the registry maps i2 to
m and holds no entry for i1.  The Client of src/api/__init__.py instead
supersedes locally: it writes no cancellation notification (the single
written message is the new request), adds i1 to its canceled set, and
keeps i1 registered alongside the new i2. -/
theorem C2_request_supersession (pre post : List (Int × String))
    (st : Lsp.LSPClientState) (stA : Api.ClientState) (i1 : Int) (m : String)
    (params : Json)
    (hmap : st.request_map = pre ++ (i1, m) :: post)
    (hpreM : ∀ e ∈ pre, e.2 ≠ m) (hpostM : ∀ e ∈ post, e.2 ≠ m)
    (hpreK : ∀ e ∈ pre, e.1 ≠ i1) (hfresh : st.current_req_id + 1 ≠ i1)
    (hpostK : ∀ e ∈ post, e.1 ≠ i1)
    (hmapA : stA.request_map = pre ++ (i1, m) :: post)
    (hfreshA : stA.temp_request_id + 1 ≠ i1) :
    Lsp.LSPClient.send_request st m params =
      Except.ok (⟨idictSet (pre ++ post) (st.current_req_id + 1) m,
          st.current_req_id + 1⟩,
        [Lsp.RPCMessage.cancel_request (Json.num i1),
         Lsp.RPCMessage.request (Json.num (st.current_req_id + 1)) m params]) ∧
    idictGet (idictSet (pre ++ post) (st.current_req_id + 1) m) i1 = none ∧
    idictGet (idictSet (pre ++ post) (st.current_req_id + 1) m)
      (st.current_req_id + 1) = some m ∧
    Api.Client.send_request stA m params =
      (⟨idictSet (pre ++ (i1, m) :: post) (stA.temp_request_id + 1) m,
          Api.setAdd stA.canceled_requests i1, stA.temp_request_id + 1⟩,
        [Api.RPCMessage.dumps
          (Api.RPCMessage.request (Json.num (stA.temp_request_id + 1)) m params)]) ∧
    idictGet (idictSet (pre ++ (i1, m) :: post) (stA.temp_request_id + 1) m) i1 =
      some m := by
  refine ⟨?_, ?_, idictGet_idictSet_self _ _ _, ?_, ?_⟩
  · unfold Lsp.LSPClient.send_request Lsp.next_request_id
    dsimp only
    rw [hmap]
    have hne : ((pre ++ (i1, m) :: post).isEmpty) = false := by
      cases pre <;> rfl
    rw [hne]
    rw [if_neg (by decide)]
    rw [cancelMatching_skip m _ pre _ hpreM, Lsp.cancelMatching, if_pos rfl]
    unfold Lsp.LSPClient.cancel_request
    dsimp only
    rw [idictPop_append_cons i1 m post pre hpreK]
    dsimp only
    rw [cancelMatching_none m post _ hpostM]
    dsimp only
    simp
  · rw [idictGet_idictSet_ne _ _ _ (fun h => hfresh h.symm)]
    apply idictGet_eq_none_of
    intro e he
    rcases List.mem_append.mp he with h | h
    · exact fun hh => hpreK e h hh
    · exact fun hh => hpostK e h hh
  · unfold Api.Client.send_request Api.new_request_id
    dsimp only
    rw [hmapA, cancelPrevious_skip m _ pre _ hpreM, Api.cancelPrevious, if_pos rfl,
      cancelPrevious_none m post _ hpostM]
  · rw [idictGet_idictSet_ne _ _ _ (fun h => hfreshA h.symm),
      idictGet_append_cons i1 m post pre hpreK]

/-- Witness for C2: the spec scenario, a hover request registered under id 1
with the counter at 1, in both engines; the lsp.py client assigns id 2,
writes one cancellation for id 1 then the request, and keeps only id 2; the
init-module client writes just the new request and keeps both ids. -/
theorem C2_request_supersession_witness :
    Lsp.LSPClient.send_request ⟨[(1, "textDocument/hover")], 1⟩
        "textDocument/hover" Json.null =
      Except.ok (⟨[(2, "textDocument/hover")], 2⟩,
        [Lsp.RPCMessage.cancel_request (Json.num 1),
         Lsp.RPCMessage.request (Json.num 2) "textDocument/hover" Json.null]) ∧
    idictGet [(2, "textDocument/hover")] 1 = none ∧
    idictGet [(2, "textDocument/hover")] 2 = some "textDocument/hover" ∧
    Api.Client.send_request ⟨[(1, "textDocument/hover")], [], 1⟩
        "textDocument/hover" Json.null =
      (⟨[(1, "textDocument/hover"), (2, "textDocument/hover")], [1], 2⟩,
        [Api.RPCMessage.dumps
          (Api.RPCMessage.request (Json.num 2) "textDocument/hover" Json.null)]) ∧
    idictGet [(1, "textDocument/hover"), (2, "textDocument/hover")] 1 =
      some "textDocument/hover" := by
  have h := C2_request_supersession [] [] ⟨[(1, "textDocument/hover")], 1⟩
    ⟨[(1, "textDocument/hover")], [], 1⟩ 1 "textDocument/hover" Json.null rfl
    (by simp) (by simp) (by simp) (by decide) (by simp) rfl (by decide)
  exact ⟨h.1, h.2.1, h.2.2.1, h.2.2.2.1, h.2.2.2.2⟩

/-- C8 counterexample: the claim says cancel_request is safe to call on an id
that is not registered (a no-op that does not raise); but on an empty
registry, cancel_request of id 7 raises KeyError from request_map.pop and
sends nothing. -/
theorem C8_cancel_unknown_id_counterexample :
    Lsp.LSPClient.cancel_request ⟨[], -1⟩ 7 = Except.error Lsp.LspError.keyError := rfl

/-- C8 as amended: cancel_request on a registered id removes it from the
registry and emits exactly one cancellation notification; on an
unregistered id it raises KeyError from request_map.pop and emits
nothing. -/
theorem C8_cancel_request_behavior (st : Lsp.LSPClientState) (id : Int) :
    (∀ rest, idictPop st.request_map id = some rest →
      Lsp.LSPClient.cancel_request st id =
        Except.ok ({ st with request_map := rest },
          [Lsp.RPCMessage.cancel_request (Json.num id)])) ∧
    (idictPop st.request_map id = none →
      Lsp.LSPClient.cancel_request st id = Except.error Lsp.LspError.keyError) := by
  constructor
  · intro rest h
    unfold Lsp.LSPClient.cancel_request
    rw [h]
  · intro h
    unfold Lsp.LSPClient.cancel_request
    rw [h]

/-- Witness for C8 at concrete inputs: a registered id is removed with one
cancellation emitted; an unknown id raises KeyError. -/
theorem C8_cancel_request_behavior_witness :
    Lsp.LSPClient.cancel_request ⟨[(3, "textDocument/hover")], 3⟩ 3 =
      Except.ok (⟨[], 3⟩, [Lsp.RPCMessage.cancel_request (Json.num 3)]) ∧
    Lsp.LSPClient.cancel_request ⟨[], 5⟩ 7 = Except.error Lsp.LspError.keyError :=
  ⟨(C8_cancel_request_behavior ⟨[(3, "textDocument/hover")], 3⟩ 3).1 [] rfl,
   (C8_cancel_request_behavior ⟨[], 5⟩ 7).2 rfl⟩

/-- C9 counterexample: the claim says send_request and send_notification
fail fast with NotInitialized before writing when the session is not
initialized; but the source of both methods consults no session state at
all (the session flag is not an input of either), and on a fresh client
each call succeeds and writes its message to the transport. -/
theorem C9_unguarded_send_counterexample :
    Lsp.LSPClient.send_request ⟨[], -1⟩ "textDocument/hover" Json.null =
      Except.ok (⟨[(0, "textDocument/hover")], 0⟩,
        [Lsp.RPCMessage.request (Json.num 0) "textDocument/hover" Json.null]) ∧
    Lsp.LSPClient.send_notification ⟨[], -1⟩ "textDocument/didOpen" Json.null =
      (⟨[], -1⟩, [Lsp.RPCMessage.notification "textDocument/didOpen" Json.null]) :=
  ⟨rfl, rfl⟩

/-- C9 as amended: the NotInitialized guard lives one layer above, on the
Commands methods wrapped by the session.initialized decorator (here
workspace_executeCommand): with the session flag false the call raises
NotInitialized synchronously, before any message is built or written; with
the flag true it delegates to the unguarded send_request. -/
theorem C9_guard_at_commands_layer (st : Lsp.LSPClientState) (params : Json) :
    Lsp.Commands.workspace_executeCommand false st params =
      Except.error Lsp.LspError.notInitialized ∧
    Lsp.Commands.workspace_executeCommand true st params =
      Lsp.LSPClient.send_request st "workspace/executeCommand" params :=
  ⟨rfl, rfl⟩

/-- C10: dispatching a response whose id is tracked pops the id to method
entry and invokes the handler for that method exactly once (with nothing
written); dispatching a second response with the same id on the resulting
state finds no registry entry and invokes no handler (the lsp.py fallback
then writes an error response, which the claim does not constrain). -/
theorem C10_at_most_once_dispatch (command_map : List String)
    (st : Lsp.LSPClientState) (message : RPCMessage) (i : Int) (m : String)
    (pre post : List (Int × String))
    (hid : pyGet message "id" = some (Json.num i))
    (hmethod : pyGet message "method" = none)
    (hmap : st.request_map = pre ++ (i, m) :: post)
    (hpre : ∀ e ∈ pre, e.1 ≠ i) (hpost : ∀ e ∈ post, e.1 ≠ i)
    (hcmd : m ∈ command_map) :
    Lsp.LSPClient.exec_message command_map st message =
      ({ st with request_map := pre ++ post }, [(m, message)], []) ∧
    Lsp.LSPClient.exec_message command_map { st with request_map := pre ++ post }
        message =
      ({ st with request_map := pre ++ post }, [],
        [Lsp.RPCMessage.response (Json.num i) none (some Lsp.error9001)]) := by
  constructor
  · unfold Lsp.LSPClient.exec_message
    rw [hid]
    dsimp only [keyOfJson]
    rw [hmap, idictGet_append_cons i m post pre hpre]
    dsimp only [Option.isSome]
    rw [if_pos rfl]
    unfold Lsp.LSPClient.exec_response
    rw [hmap, idictPopV_append_cons i m post pre hpre]
    dsimp only
    unfold Lsp.LSPClient.exec_command
    dsimp only
    rw [if_pos hcmd]
  · unfold Lsp.LSPClient.exec_message
    rw [hid]
    dsimp only [keyOfJson]
    have hnone : idictGet (pre ++ post) i = none := by
      apply idictGet_eq_none_of
      intro e he
      rcases List.mem_append.mp he with h | h
      · exact hpre e h
      · exact hpost e h
    rw [hnone]
    dsimp only [Option.isSome]
    rw [if_neg (by simp)]
    unfold Lsp.exec_message_fallback Lsp.methodKey
    rw [hmethod]
    rfl

/-- Witness for C10: a hover response for tracked id 1 dispatches to the
hover handler once and pops the registry; redelivering the same response
invokes no handler. -/
theorem C10_at_most_once_dispatch_witness :
    Lsp.LSPClient.exec_message ["textDocument/hover"]
        ⟨[(1, "textDocument/hover")], 1⟩ [("id", Json.num 1), ("result", Json.str "x")] =
      (⟨[], 1⟩, [("textDocument/hover", [("id", Json.num 1), ("result", Json.str "x")])],
        []) ∧
    Lsp.LSPClient.exec_message ["textDocument/hover"] ⟨[], 1⟩
        [("id", Json.num 1), ("result", Json.str "x")] =
      (⟨[], 1⟩, [],
        [Lsp.RPCMessage.response (Json.num 1) none (some Lsp.error9001)]) := by
  have h := C10_at_most_once_dispatch ["textDocument/hover"]
    ⟨[(1, "textDocument/hover")], 1⟩ [("id", Json.num 1), ("result", Json.str "x")]
    1 "textDocument/hover" [] [] rfl rfl rfl (by simp) (by simp) (by simp)
  exact ⟨h.1, h.2⟩

/-- C3 counterexample: the claim says a response-shaped message with an
untracked id causes no outbound message to be written; but the
LSPClient.exec_message of src/api/lsp.py, given a response carrying
untracked id 7, falls through to command dispatch, catches the failure, and
writes one outbound error response with code 9001 echoing that id (it does
invoke no handler). -/
theorem C3_lsp_outbound_counterexample :
    Lsp.LSPClient.exec_message [] ⟨[], 1⟩ [("id", Json.num 7), ("result", Json.null)] =
      (⟨[], 1⟩, [], [Lsp.RPCMessage.response (Json.num 7) none (some Lsp.error9001)]) :=
  rfl

/-- C3 as amended: an inbound message with no method field and an id that is
not tracked in the request registry (nor marked canceled) invokes no
handler and does not raise to the listen loop in either engine, and leaves
the client state unchanged.  In the Client of src/api/init it is only
logged: nothing is written to the transport (handle_response catches the
MethodNotFound raised for the unknown method internally).  The LSPClient of
src/api/lsp.py, however, treats the message as an unknown command and
writes exactly one outbound error response (code 9001) echoing the
untracked id. -/
theorem C3_stale_response_ignored (handlers : List (String × Json))
    (st : Api.ClientState) (stL : Lsp.LSPClientState) (command_map : List String)
    (message : RPCMessage) (i : Int)
    (hmethod : pyGet message "method" = none)
    (hid : pyGet message "id" = some (Json.num i))
    (hnotin : idictPopV st.request_map i = none)
    (hnotcanc : i ∉ st.canceled_requests)
    (hunknown : dictGet handlers (Api.flatten_method "unknown") = none)
    (hnotinL : idictGet stL.request_map i = none) :
    Api.Client.handle_message handlers st message = (st, [], []) ∧
    Lsp.LSPClient.exec_message command_map stL message =
      (stL, [], [Lsp.RPCMessage.response (Json.num i) none (some Lsp.error9001)]) := by
  constructor
  · unfold Api.Client.handle_message
    rw [hmethod, hid]
    dsimp only [pyTruthyOpt]
    unfold Api.Client.handle_response
    dsimp only [keyOfJson]
    unfold idictPopD
    rw [hnotin]
    dsimp only
    rw [if_neg hnotcanc]
    unfold Api.BaseHandler.handle
    rw [hunknown]
    rfl
  · unfold Lsp.LSPClient.exec_message
    rw [hid]
    dsimp only [keyOfJson]
    rw [hnotinL]
    dsimp only [Option.isSome]
    rw [if_neg (by simp)]
    unfold Lsp.exec_message_fallback Lsp.methodKey
    rw [hmethod]
    rfl

/-- Witness for C3: a response carrying untracked id 5 on fresh clients with
no handlers is dropped by both engines without any handler call, with no
outbound write in the init-module client and exactly one 9001 error
response in the lsp.py client. -/
theorem C3_stale_response_ignored_witness :
    Api.Client.handle_message [] ⟨[], [], -1⟩
        [("id", Json.num 5), ("result", Json.null)] = (⟨[], [], -1⟩, [], []) ∧
    Lsp.LSPClient.exec_message ["textDocument/hover"] ⟨[], 3⟩
        [("id", Json.num 5), ("result", Json.null)] =
      (⟨[], 3⟩, [], [Lsp.RPCMessage.response (Json.num 5) none (some Lsp.error9001)]) := by
  have h := C3_stale_response_ignored [] ⟨[], [], -1⟩ ⟨[], 3⟩ ["textDocument/hover"]
    [("id", Json.num 5), ("result", Json.null)] 5 rfl rfl rfl (by simp) rfl rfl
  exact ⟨h.1, h.2⟩

end Gotools
